import Mathlib

/-!
Verification of the client-side interview session state machine implemented in
frontend/script.js of the ai_interviewer repository.

The script is single-threaded, event-driven browser code.  We embed it shallowly:

* The mutable module state (the variables interviewId, isAIReplying and the DOM
  fields the handlers read or write) becomes the record State.
* Each event handler becomes a pure function State -> State x List Event,
  parameterised by the outcomes of its asynchronous collaborators (the fetch
  results and whether the speech-synthesis fetch succeeds).  The List Event is
  the ordered trace of observable actions the handler performs: appended chat
  turns, issued HTTP requests, alerts, console logs, control enable/disable,
  navigation, audio playback.
* One asynchronous subtlety of the source is modelled explicitly: inside
  processAndDisplayAIResponse the call endInterview(data.final_evaluation) is
  NOT awaited.  endInterview runs synchronously up to its internal
  await speakText(...) (which itself dispatches the speech fetch synchronously
  and then suspends), so processAndDisplayAIResponse resolves while endInterview
  is still suspended.  The continuation of the awaiting caller (the finally block of
  sendMessage, or the trailing setControlsState(false) of the start handler) is
  already queued as a microtask at that point, whereas endInterview resumes only
  when its speech fetch settles, which is strictly later.  Hence the callers
  post-await code always runs first, and the tail of endInterview
  (speech completion, setControlsState(true), showing the download button) runs
  last.  We model this by splitting endInterview into endInterviewPhase1 (the
  part before its suspension) and endInterviewResume (the deferred tail), and by
  sequencing them in each handler in that deterministic order.
-/

set_option maxHeartbeats 1000000

namespace AIInterviewer

/-- Sender tag of a rendered chat message (the user-message / ai-message css class
given to addMessage in script.js). -/
inductive Sender
  | user
  | ai
deriving DecidableEq, Repr

/-- One rendered message in the chatbox (one div appended by addMessage). -/
structure Turn where
  text : String
  sender : Sender
deriving DecidableEq, Repr

/-- Observable actions performed by the handlers, in program order. -/
inductive Event
  | appendTurn (text : String) (sender : Sender)
  | clearInput
  | controlsSet (disabled : Bool)
  | recognitionStartCall
  | recognitionStopCall
  | fetchStart (name experience : String)
  | fetchChat (interviewId : Option Int) (text : String)
  | speakFetch (text : String)
  | audioPlay
  | audioEnded
  | speakResolved
  | consoleError (msg : String)
  | alertShown (msg : String)
  | navigate (url : String)
  | showDownload
deriving DecidableEq, Repr

/-- The response object parsed from /api/start or /api/chat
(script.js reads data.interview_id, data.response, data.interview_over,
data.final_evaluation; the last may be absent, hence Option). -/
structure AIData where
  interview_id : Int
  response : String
  interview_over : Bool
  final_evaluation : Option String
deriving DecidableEq, Repr

/-- JavaScript string interpolation of a possibly-absent value:
a missing final_evaluation renders as "undefined" in a template literal. -/
def jsUndefined : Option String → String
  | some t => t
  | none => "undefined"

/-- JavaScript string interpolation of the interviewId variable:
null renders as "null" in a template literal. -/
def jsIdString : Option Int → String
  | some n => toString n
  | none => "null"

/-- The String.prototype.trim() of JavaScript: strips whitespace from both
ends of the string.  (Defined by structural recursion over the character list
so that it evaluates on concrete inputs.) -/
def jsTrim (t : String) : String :=
  String.mk (((t.data.dropWhile Char.isWhitespace).reverse.dropWhile Char.isWhitespace).reverse)

/-- The module state of script.js: the let-bound variables interviewId and
isAIReplying, plus the DOM state the handlers read or write. -/
structure State where
  interviewId : Option Int
  isAIReplying : Bool
  userInputValue : String
  userNameValue : String
  userExperienceValue : String
  chatbox : List Turn
  userInputDisabled : Bool
  sendBtnDisabled : Bool
  speechBtnDisabled : Bool
  downloadBtnVisible : Bool
  initialSetupVisible : Bool
  interviewPanelVisible : Bool
  recognitionAvailable : Bool
  recognitionListening : Bool
deriving DecidableEq, Repr

/-- State right after the DOMContentLoaded handler runs: interviewId null,
isAIReplying false, empty inputs and chatbox; when the browser offers no
SpeechRecognition capability the speech button is disabled at load. -/
def initState (speechSupported : Bool) : State where
  interviewId := none
  isAIReplying := false
  userInputValue := ""
  userNameValue := ""
  userExperienceValue := ""
  chatbox := []
  userInputDisabled := false
  sendBtnDisabled := false
  speechBtnDisabled := !speechSupported
  downloadBtnVisible := false
  initialSetupVisible := true
  interviewPanelVisible := false
  recognitionAvailable := speechSupported
  recognitionListening := false

/-- addMessage: appends one message div to the chatbox. -/
def addMessage (text : String) (sender : Sender) (s : State) : State × List Event :=
  ({ s with chatbox := s.chatbox ++ [⟨text, sender⟩] }, [Event.appendTurn text sender])

/-- setControlsState: writes isAIReplying and the disabled flags of the input,
send and speech controls; when disabling and a recognition object exists it also
calls recognition.stop(). -/
def setControlsState (disabled : Bool) (s : State) : State × List Event :=
  let s1 := { s with isAIReplying := disabled, userInputDisabled := disabled,
                     sendBtnDisabled := disabled, speechBtnDisabled := disabled }
  if s.recognitionAvailable && disabled then
    ({ s1 with recognitionListening := false },
      [Event.controlsSet disabled, Event.recognitionStopCall])
  else
    (s1, [Event.controlsSet disabled])

/-- The observable tail of speakText after its fetch of /api/speak settles:
on success the audio plays to completion and then the promise resolves; on a
non-ok status or network error the catch block logs to the console and the
promise resolves immediately, with no playback. -/
def speakTailEvents (fetchOk : Bool) : List Event :=
  if fetchOk then
    [Event.audioPlay, Event.audioEnded, Event.speakResolved]
  else
    [Event.consoleError "Speech synthesis error:", Event.speakResolved]

/-- speakText, run to completion (as its awaiting callers observe it):
dispatches the /api/speak fetch, then either plays the audio and resolves when
playback ends, or logs the failure and resolves immediately.  It never changes
the application state. -/
def speakText (fetchOk : Bool) (text : String) (s : State) : State × List Event :=
  (s, Event.speakFetch text :: speakTailEvents fetchOk)

/-- The termination message endInterview builds by template literal. -/
def termMsg (finalEvaluation : Option String) : String :=
  "Interview Over. Final Evaluation: " ++ jsUndefined finalEvaluation

/-- The synchronous prefix of endInterview, up to its suspension inside
await speakText(...): it appends the termination message as an AI turn and
dispatches the speech fetch for it. -/
def endInterviewPhase1 (finalEvaluation : Option String) (s : State) : State × List Event :=
  let msg := termMsg finalEvaluation
  ((addMessage msg Sender.ai s).1, (addMessage msg Sender.ai s).2 ++ [Event.speakFetch msg])

/-- The deferred tail of endInterview, run when its speech fetch settles:
the remaining speakText events, then setControlsState(true) and revealing the
download button. -/
def endInterviewResume (speakOk : Bool) (s : State) : State × List Event :=
  ({ (setControlsState true s).1 with downloadBtnVisible := true },
    speakTailEvents speakOk ++ (setControlsState true s).2 ++ [Event.showDownload])

/-- processAndDisplayAIResponse, as observed by its awaiting caller: appends the
response text as one AI turn, awaits speakText for it, and if the response
declares the interview over fires endInterview without awaiting it, so only
endInterviewPhase1 has run when this function resolves.  The Bool component
records that the deferred endInterviewResume is still pending. -/
def processAndDisplayAIResponse (data : AIData) (speakOk1 : Bool) (s : State) :
    State × List Event × Bool :=
  let s1 := (addMessage data.response Sender.ai s).1
  let e1 := (addMessage data.response Sender.ai s).2
  let e2 := (speakText speakOk1 data.response s1).2
  if data.interview_over then
    let s3 := (endInterviewPhase1 data.final_evaluation s1).1
    (s3, e1 ++ e2 ++ (endInterviewPhase1 data.final_evaluation s1).2, true)
  else
    (s1, e1 ++ e2, false)

/-- The continuation of sendMessage from the resolution of its awaited chat
fetch and json() onward (lines 127-136): on a parsed response
(chatResult = some data) it runs processAndDisplayAIResponse; on a rejected
fetch or json() (chatResult = none) the catch block logs and appends the
generic error turn; either way the finally block re-enables the controls
unless the download button has become visible, and a deferred
endInterviewResume, when pending, runs after that.  Being a closure, it runs
against whatever state holds when the response arrives. -/
def chatResume (chatResult : Option AIData) (speakOk1 speakOk2 : Bool) (s : State) :
    State × List Event :=
  match chatResult with
  | some data =>
    let s4 := (processAndDisplayAIResponse data speakOk1 s).1
    let e4 := (processAndDisplayAIResponse data speakOk1 s).2.1
    let s5 := if s4.downloadBtnVisible then s4 else (setControlsState false s4).1
    let e5 := if s4.downloadBtnVisible then ([] : List Event) else (setControlsState false s4).2
    let s6 := if (processAndDisplayAIResponse data speakOk1 s).2.2 then
        (endInterviewResume speakOk2 s5).1 else s5
    let e6 := if (processAndDisplayAIResponse data speakOk1 s).2.2 then
        (endInterviewResume speakOk2 s5).2 else ([] : List Event)
    (s6, e4 ++ e5 ++ e6)
  | none =>
    let sE := (addMessage "Sorry, an error occurred. Please try again." Sender.ai s).1
    let eE := Event.consoleError "Error sending message:" ::
      (addMessage "Sorry, an error occurred. Please try again." Sender.ai s).2
    let s5 := if sE.downloadBtnVisible then sE else (setControlsState false sE).1
    let e5 := if sE.downloadBtnVisible then ([] : List Event) else (setControlsState false sE).2
    (s5, eE ++ e5)

/-- sendMessage: guarded no-op when the trimmed input is empty or isAIReplying
is set; otherwise it appends the user turn, clears the input, disables the
controls, issues the chat request carrying the current interviewId, and runs
the chatResume continuation on the response. -/
def sendMessage (chatResult : Option AIData) (speakOk1 speakOk2 : Bool) (s : State) :
    State × List Event :=
  let userText := jsTrim s.userInputValue
  if userText.isEmpty || s.isAIReplying then (s, [])
  else
    let s1 := (addMessage userText Sender.user s).1
    let s2 := { s1 with userInputValue := "" }
    let s3 := (setControlsState true s2).1
    let preEvents := (addMessage userText Sender.user s).2 ++ [Event.clearInput] ++
      (setControlsState true s2).2 ++ [Event.fetchChat s.interviewId userText]
    ((chatResume chatResult speakOk1 speakOk2 s3).1,
      preEvents ++ (chatResume chatResult speakOk1 speakOk2 s3).2)

/-- The continuation of the start-button click handler from the resolution of
its awaited fetch and json() onward (lines 156-169): on a parsed response
(startResult = some data) it stores interviewId, swaps the panels, disables
the controls, processes the embedded first AI response and unconditionally
calls setControlsState(false), with a deferred endInterviewResume, when
pending, running after that; on a rejected fetch or json()
(startResult = none) the catch block logs and alerts.  Being a closure, it
runs against whatever state holds when the response arrives — it carries no
guard of any kind. -/
def startResume (startResult : Option AIData) (speakOk1 speakOk2 : Bool) (s : State) :
    State × List Event :=
  match startResult with
  | none =>
    (s, [Event.consoleError "Error starting interview:",
         Event.alertShown "Could not start interview. Check console for details."])
  | some data =>
    let s1 := { s with interviewId := some data.interview_id,
                       initialSetupVisible := false, interviewPanelVisible := true }
    let s2 := (setControlsState true s1).1
    let s4 := (setControlsState false (processAndDisplayAIResponse data speakOk1 s2).1).1
    let s5 := if (processAndDisplayAIResponse data speakOk1 s2).2.2 then
        (endInterviewResume speakOk2 s4).1 else s4
    let ev := (setControlsState true s1).2 ++
      (processAndDisplayAIResponse data speakOk1 s2).2.1 ++
      (setControlsState false (processAndDisplayAIResponse data speakOk1 s2).1).2 ++
      (if (processAndDisplayAIResponse data speakOk1 s2).2.2 then
        (endInterviewResume speakOk2 s4).2 else [])
    (s5, ev)

/-- The start-button click handler: validates the trimmed name and experience
(alert and return on failure), issues the start request, and runs the
startResume continuation on the response. -/
def startClick (startResult : Option AIData) (speakOk1 speakOk2 : Bool) (s : State) :
    State × List Event :=
  let userName := jsTrim s.userNameValue
  let userExperience := jsTrim s.userExperienceValue
  if userName.isEmpty || userExperience.isEmpty then
    (s, [Event.alertShown "Please enter your name and experience."])
  else
    ((startResume startResult speakOk1 speakOk2 s).1,
      Event.fetchStart userName userExperience :: (startResume startResult speakOk1 speakOk2 s).2)

/-- The synchronous prefix of the start-button click handler, up to and
including the dispatch of the /api/start fetch (the fetch call itself runs
before the handler suspends on its await).  No state is written before that
suspension, so a click only produces events; its state is unchanged until the
response arrives.  This is the code a second click runs while the first
request is still in flight. -/
def startRequestPhase (s : State) : List Event :=
  let userName := jsTrim s.userNameValue
  let userExperience := jsTrim s.userExperienceValue
  if userName.isEmpty || userExperience.isEmpty then
    [Event.alertShown "Please enter your name and experience."]
  else
    [Event.fetchStart userName userExperience]

/-- The speech-button click handler: returns when no recognition object exists
or isAIReplying is set; otherwise recognition.start(), whose InvalidStateError
(thrown when recognition is already running) is caught by calling
recognition.stop(). -/
def speechClick (s : State) : State × List Event :=
  if !s.recognitionAvailable || s.isAIReplying then (s, [])
  else if s.recognitionListening then
    ({ s with recognitionListening := false }, [Event.recognitionStopCall])
  else
    ({ s with recognitionListening := true }, [Event.recognitionStartCall])

/-- The download-button click handler: sets window.location.href to the report
endpoint interpolating the current interviewId, with no guard of any kind. -/
def downloadClick (s : State) : State × List Event :=
  (s, [Event.navigate ("/api/report/" ++ jsIdString s.interviewId)])

/-- The events the page can react to after load: user events (each carrying
the outcomes of the asynchronous collaborators its handler consults) together
with the delivery of a response to a request that was left in flight by an
earlier, not-yet-resolved handler (the startResume and chatResume
continuations run whenever their response arrives, whatever the current
state). -/
inductive UserAction
  | sendClick (chatResult : Option AIData) (speakOk1 speakOk2 : Bool)
  | typeText (t : String)
  | startButtonClick (startResult : Option AIData) (speakOk1 speakOk2 : Bool)
  | speechButtonClick
  | downloadButtonClick
  | recognitionResult (t : String) (chatResult : Option AIData) (speakOk1 speakOk2 : Bool)
  | startResponseArrives (startResult : Option AIData) (speakOk1 speakOk2 : Bool)
  | chatResponseArrives (chatResult : Option AIData) (speakOk1 speakOk2 : Bool)
deriving DecidableEq, Repr

/-- Action classifier: the delivery of a pending start response. -/
def UserAction.isStartArrival : UserAction → Bool
  | UserAction.startResponseArrives _ _ _ => true
  | _ => false

/-- One reaction of the page to an event.  Browser facts the DOM enforces are
modelled as guards: a control inside the hidden initial-setup container cannot
be clicked once that container has display none, a disabled text input
receives no keystrokes, and a recognition result is only delivered while
recognition is listening (recognition.onresult writes the input field and then
calls sendMessage).  Pending-response deliveries are not guarded: the network
completes regardless of the page state. -/
def step (a : UserAction) (s : State) : State × List Event :=
  match a with
  | UserAction.sendClick o b1 b2 => sendMessage o b1 b2 s
  | UserAction.typeText t =>
    if s.userInputDisabled then (s, []) else ({ s with userInputValue := t }, [])
  | UserAction.startButtonClick o b1 b2 =>
    if s.initialSetupVisible then startClick o b1 b2 s else (s, [])
  | UserAction.speechButtonClick => speechClick s
  | UserAction.downloadButtonClick => downloadClick s
  | UserAction.recognitionResult t o b1 b2 =>
    if s.recognitionListening then sendMessage o b1 b2 { s with userInputValue := t }
    else (s, [])
  | UserAction.startResponseArrives o b1 b2 => startResume o b1 b2 s
  | UserAction.chatResponseArrives o b1 b2 => chatResume o b1 b2 s

/-- The state reached after a sequence of user events. -/
def run (acts : List UserAction) (s : State) : State :=
  acts.foldl (fun st a => (step a st).1) s

/-- The terminated configuration: isAIReplying latched, the input, send and
speech controls disabled, the download button visible, the initial setup
hidden. -/
def Terminated (s : State) : Prop :=
  s.isAIReplying = true ∧ s.userInputDisabled = true ∧ s.sendBtnDisabled = true ∧
  s.speechBtnDisabled = true ∧ s.downloadBtnVisible = true ∧ s.initialSetupVisible = false

instance (s : State) : Decidable (Terminated s) := by
  unfold Terminated
  infer_instance

/-- Turn classifier: a message rendered with the user tag. -/
def Turn.isUserTurn : Turn → Bool
  | ⟨_, Sender.user⟩ => true
  | ⟨_, Sender.ai⟩ => false

/-- The number of user Turns in a transcript. -/
def userTurnCount (l : List Turn) : Nat :=
  l.countP Turn.isUserTurn

/-- Event classifier: an appended AI turn. -/
def Event.isAiTurn : Event → Bool
  | Event.appendTurn _ Sender.ai => true
  | _ => false

/-- Event classifier: an issued chat request. -/
def Event.isChatRequest : Event → Bool
  | Event.fetchChat _ _ => true
  | _ => false

/-- Event classifier: an issued start request. -/
def Event.isStartRequest : Event → Bool
  | Event.fetchStart _ _ => true
  | _ => false

/-- Event classifier: an invocation of the speech output adapter. -/
def Event.isSpeakInvoke : Event → Bool
  | Event.speakFetch _ => true
  | _ => false

/-- Event classifier: the completion signal of the speech output adapter. -/
def Event.isSpeakDone : Event → Bool
  | Event.speakResolved => true
  | _ => false

/-- Event classifier: a re-enabling of the controls. -/
def Event.isReenable : Event → Bool
  | Event.controlsSet b => !b
  | _ => false

/-- Event classifier: audio playback activity. -/
def Event.isPlayback : Event → Bool
  | Event.audioPlay => true
  | Event.audioEnded => true
  | _ => false

/-- Event classifier: the clearing of the text input. -/
def Event.isClearInput : Event → Bool
  | Event.clearInput => true
  | _ => false

/-- No controls re-enabling occurs in a trace before the speech output
first completion signal of the speech adapter. -/
def noReenableBeforeSpeakDone (tr : List Event) : Bool :=
  (tr.takeWhile (fun e => !e.isSpeakDone)).all (fun e => !e.isReenable)

/-- A concrete page state with the setup fields filled in and text typed. -/
def demoReady : State :=
  { initState true with userNameValue := "Ada", userExperienceValue := "5 years",
                        userInputValue := "hello" }

/-- A concrete non-terminating backend response. -/
def demoData : AIData :=
  { interview_id := 42, response := "Tell me about recursion.", interview_over := false,
    final_evaluation := none }

/-- A concrete terminating backend response. -/
def demoTermData : AIData :=
  { interview_id := 42, response := "Good.", interview_over := true,
    final_evaluation := some "Pass" }

/-- A concrete follow-up event sequence containing every kind of event except
a pending-start-response delivery. -/
def demoFollowUps : List UserAction :=
  [UserAction.downloadButtonClick, UserAction.typeText "x",
   UserAction.sendClick none true true, UserAction.speechButtonClick,
   UserAction.chatResponseArrives (some demoData) true true]

/-! ### Normalization lemmas for the handler bodies -/

@[simp] theorem addMessage_fst (t : String) (sd : Sender) (s : State) :
    (addMessage t sd s).1 = { s with chatbox := s.chatbox ++ [⟨t, sd⟩] } := rfl

@[simp] theorem addMessage_snd (t : String) (sd : Sender) (s : State) :
    (addMessage t sd s).2 = [Event.appendTurn t sd] := rfl

@[simp] theorem speakText_fst (ok : Bool) (t : String) (s : State) :
    (speakText ok t s).1 = s := rfl

@[simp] theorem setControlsState_fst (b : Bool) (s : State) :
    (setControlsState b s).1 =
      { s with isAIReplying := b, userInputDisabled := b, sendBtnDisabled := b,
               speechBtnDisabled := b,
               recognitionListening :=
                 if s.recognitionAvailable && b then false else s.recognitionListening } := by
  unfold setControlsState
  split <;> simp_all

@[simp] theorem setControlsState_snd (b : Bool) (s : State) :
    (setControlsState b s).2 =
      if s.recognitionAvailable && b then [Event.controlsSet b, Event.recognitionStopCall]
      else [Event.controlsSet b] := by
  unfold setControlsState
  split <;> simp_all

@[simp] theorem endInterviewPhase1_fst (fe : Option String) (s : State) :
    (endInterviewPhase1 fe s).1 =
      { s with chatbox := s.chatbox ++ [⟨termMsg fe, Sender.ai⟩] } := rfl

@[simp] theorem endInterviewPhase1_snd (fe : Option String) (s : State) :
    (endInterviewPhase1 fe s).2 =
      [Event.appendTurn (termMsg fe) Sender.ai, Event.speakFetch (termMsg fe)] := rfl

@[simp] theorem endInterviewResume_fst (ok : Bool) (s : State) :
    (endInterviewResume ok s).1 =
      { s with isAIReplying := true, userInputDisabled := true, sendBtnDisabled := true,
               speechBtnDisabled := true, downloadBtnVisible := true,
               recognitionListening :=
                 if s.recognitionAvailable then false else s.recognitionListening } := by
  unfold endInterviewResume
  simp

@[simp] theorem endInterviewResume_snd (ok : Bool) (s : State) :
    (endInterviewResume ok s).2 =
      speakTailEvents ok ++
      (if s.recognitionAvailable then [Event.controlsSet true, Event.recognitionStopCall]
       else [Event.controlsSet true]) ++ [Event.showDownload] := by
  unfold endInterviewResume
  simp

@[simp] theorem processAndDisplayAIResponse_fst (d : AIData) (b1 : Bool) (s : State) :
    (processAndDisplayAIResponse d b1 s).1 =
      { s with chatbox := s.chatbox ++ [⟨d.response, Sender.ai⟩] ++
          (if d.interview_over then [⟨termMsg d.final_evaluation, Sender.ai⟩] else []) } := by
  unfold processAndDisplayAIResponse
  split <;> simp_all

@[simp] theorem processAndDisplayAIResponse_trace (d : AIData) (b1 : Bool) (s : State) :
    (processAndDisplayAIResponse d b1 s).2.1 =
      [Event.appendTurn d.response Sender.ai, Event.speakFetch d.response] ++
      speakTailEvents b1 ++
      (if d.interview_over then
        [Event.appendTurn (termMsg d.final_evaluation) Sender.ai,
         Event.speakFetch (termMsg d.final_evaluation)] else []) := by
  unfold processAndDisplayAIResponse speakText
  split <;> simp_all

@[simp] theorem processAndDisplayAIResponse_pending (d : AIData) (b1 : Bool) (s : State) :
    (processAndDisplayAIResponse d b1 s).2.2 = d.interview_over := by
  unfold processAndDisplayAIResponse
  split <;> simp_all

/-- sendMessage never writes the interviewId variable: script.js assigns it
only in the start handler. -/
theorem sendMessage_fst_interviewId (o : Option AIData) (b1 b2 : Bool) (s : State) :
    (sendMessage o b1 b2 s).1.interviewId = s.interviewId := by
  unfold sendMessage chatResume
  cases o <;> split <;> simp_all <;> split_ifs <;> simp_all

/-! ### Claim theorems -/

/-- Claim C8: every Send-turn invocation whose input text is empty or
whitespace-only after trimming is a no-op: no Turn is appended to the message
log, no chat request is issued, and the state is unchanged. -/
theorem blank_send_noop (s : State) (chatResult : Option AIData) (b1 b2 : Bool)
    (h : jsTrim s.userInputValue = "") :
    sendMessage chatResult b1 b2 s = (s, []) := by
  unfold sendMessage
  rw [h]
  simp [show "".isEmpty = true from rfl]

/-- Witness for blank_send_noop at a concrete whitespace-only input. -/
theorem blank_send_noop_witness :
    sendMessage none true true { initState true with userInputValue := "   " } =
      ({ initState true with userInputValue := "   " }, []) :=
  blank_send_noop { initState true with userInputValue := "   " } none true true (by decide)

/-- Claim C2 (amended): while isAIReplying is true, any sendMessage invocation
is a no-op: no chat request is issued, no Turn is appended, the state is
unchanged; the duplicate submission is dropped, not queued.  This guards the
send button and the Enter key; the start button click handler carries no such
guard (see start_double_click_two_requests). -/
theorem awaiting_send_noop (s : State) (chatResult : Option AIData) (b1 b2 : Bool)
    (h : s.isAIReplying = true) :
    sendMessage chatResult b1 b2 s = (s, []) := by
  unfold sendMessage
  rw [h]
  simp

/-- Witness for awaiting_send_noop at a concrete awaiting state. -/
theorem awaiting_send_noop_witness :
    sendMessage (some demoData) true true { demoReady with isAIReplying := true } =
      ({ demoReady with isAIReplying := true }, []) :=
  awaiting_send_noop { demoReady with isAIReplying := true } (some demoData) true true rfl

/-- Counterexample to claim C2 as stated: the start-button click handler is not
guarded by isAIReplying, nor does it disable the controls before its fetch, so
the synchronous request phase of a click leaves the state unchanged and issues
a start request; a second click arriving while the first request is still in
flight therefore runs the identical phase and issues a second start request
rather than being dropped — two start requests are in flight at once. -/
theorem start_double_click_two_requests :
    startRequestPhase demoReady = [Event.fetchStart "Ada" "5 years"] ∧
    (startRequestPhase demoReady ++ startRequestPhase demoReady).countP
      Event.isStartRequest = 2 := by
  constructor
  · decide
  · decide

/-- Counterexample to claim C4 as stated: with interviewId still null (no
interview started), a download click is not a no-op — it navigates to the
report endpoint with the string "null" interpolated. -/
theorem download_null_navigates :
    downloadClick (initState true) = (initState true, [Event.navigate "/api/report/null"]) := rfl

/-- Claim C4 (amended): the download click handler has no null-interviewId
guard: every click navigates to the report endpoint interpolating the current
interviewId, which renders as "null" when no interview has started; the only
protection is that the button is hidden until termination. -/
theorem download_always_navigates (s : State) :
    downloadClick s = (s, [Event.navigate ("/api/report/" ++ jsIdString s.interviewId)]) := rfl

/-- Claim C7: when the speech synthesis fetch fails (non-ok status or network
error), speakText logs the failure to the console and resolves immediately:
its trace ends in the completion signal with no audio playback, and the
application state is unchanged, so nothing is surfaced to the user and the
interview flow is not blocked. -/
theorem speak_failure_logged_resolves (s : State) (text : String) :
    speakText false text s =
      (s, [Event.speakFetch text, Event.consoleError "Speech synthesis error:",
           Event.speakResolved]) ∧
    (speakText false text s).2.countP Event.isPlayback = 0 ∧
    (speakText false text s).2.countP Event.isAiTurn = 0 := by
  refine ⟨rfl, ?_, ?_⟩ <;> rfl

/-- Claim C9: a speech-button click while isAIReplying is true (awaiting a
response or terminated) or without a recognition capability is a no-op that
starts nothing; a click while recognition is already listening stops the prior
attempt instead of erroring. -/
theorem speech_click_guard (s : State) :
    (s.recognitionAvailable = false → speechClick s = (s, [])) ∧
    (s.isAIReplying = true → speechClick s = (s, [])) ∧
    (s.recognitionAvailable = true → s.isAIReplying = false → s.recognitionListening = true →
      speechClick s = ({ s with recognitionListening := false },
        [Event.recognitionStopCall])) := by
  refine ⟨fun h => ?_, fun h => ?_, fun h1 h2 h3 => ?_⟩ <;>
    · unfold speechClick
      simp [*]

/-- Witness for speech_click_guard: the unsupported-capability case, the
awaiting case, and the already-listening case, each at a concrete state. -/
theorem speech_click_guard_witness :
    speechClick (initState false) = (initState false, []) ∧
    speechClick { initState true with isAIReplying := true } =
      ({ initState true with isAIReplying := true }, []) ∧
    speechClick { initState true with recognitionListening := true } =
      ({ { initState true with recognitionListening := true } with
          recognitionListening := false }, [Event.recognitionStopCall]) :=
  ⟨(speech_click_guard (initState false)).1 rfl,
   (speech_click_guard { initState true with isAIReplying := true }).2.1 rfl,
   (speech_click_guard { initState true with recognitionListening := true }).2.2 rfl rfl rfl⟩

/-- Claim C5: the interviewId captured at start is never modified afterwards —
no chat turn, AI response, error or termination path (all inside sendMessage),
no speech click and no download click writes it — and a download click
navigates to the report endpoint for exactly that id. -/
theorem interviewId_read_only_after_start (s : State) (o : Option AIData) (b1 b2 : Bool)
    (n : Int) (h : s.interviewId = some n) :
    (sendMessage o b1 b2 s).1.interviewId = some n ∧
    (speechClick s).1.interviewId = some n ∧
    (downloadClick s).1.interviewId = some n ∧
    downloadClick s = (s, [Event.navigate ("/api/report/" ++ toString n)]) := by
  refine ⟨by rw [sendMessage_fst_interviewId, h], ?_, h, ?_⟩
  · unfold speechClick
    split_ifs <;> simp [h]
  · unfold downloadClick
    rw [h]
    rfl

/-- Witness for interviewId_read_only_after_start at a concrete started state. -/
theorem interviewId_read_only_after_start_witness :
    (sendMessage (some demoData) true true { demoReady with interviewId := some 42 }).1.interviewId
        = some 42 ∧
    (speechClick { demoReady with interviewId := some 42 }).1.interviewId = some 42 ∧
    (downloadClick { demoReady with interviewId := some 42 }).1.interviewId = some 42 ∧
    downloadClick { demoReady with interviewId := some 42 } =
      ({ demoReady with interviewId := some 42 }, [Event.navigate "/api/report/42"]) :=
  interviewId_read_only_after_start { demoReady with interviewId := some 42 }
    (some demoData) true true 42 rfl

/-- Claim C6: when the chat request fails while the session is active (not
terminated), exactly one AI Turn — the generic error text — is appended after
the user Turn and no other AI Turn, the controls are re-enabled, the session
stays active (download button still hidden, isAIReplying false), and exactly
one chat request appears in the trace (the failed turn is not retried). -/
theorem chat_failure_error_turn (s : State) (b1 b2 : Bool)
    (hText : (jsTrim s.userInputValue).isEmpty = false) (hA : s.isAIReplying = false)
    (hD : s.downloadBtnVisible = false) :
    (sendMessage none b1 b2 s).1.chatbox =
      s.chatbox ++ [⟨jsTrim s.userInputValue, Sender.user⟩,
        ⟨"Sorry, an error occurred. Please try again.", Sender.ai⟩] ∧
    (sendMessage none b1 b2 s).1.isAIReplying = false ∧
    (sendMessage none b1 b2 s).1.userInputDisabled = false ∧
    (sendMessage none b1 b2 s).1.sendBtnDisabled = false ∧
    (sendMessage none b1 b2 s).1.speechBtnDisabled = false ∧
    (sendMessage none b1 b2 s).1.downloadBtnVisible = false ∧
    (sendMessage none b1 b2 s).2.countP Event.isChatRequest = 1 ∧
    (sendMessage none b1 b2 s).2.countP Event.isAiTurn = 1 := by
  unfold sendMessage chatResume
  simp only [hText, hA, Bool.or_self, Bool.false_eq_true, if_false]
  simp [hD, Event.isChatRequest, Event.isAiTurn, List.countP_cons, List.countP_append]
  split_ifs <;> simp [List.countP_cons, Event.isChatRequest, Event.isAiTurn]

/-- Witness for chat_failure_error_turn at a concrete active state. -/
theorem chat_failure_error_turn_witness :
    (sendMessage none true true demoReady).1.chatbox =
      demoReady.chatbox ++ [⟨jsTrim demoReady.userInputValue, Sender.user⟩,
        ⟨"Sorry, an error occurred. Please try again.", Sender.ai⟩] ∧
    (sendMessage none true true demoReady).1.isAIReplying = false ∧
    (sendMessage none true true demoReady).1.userInputDisabled = false ∧
    (sendMessage none true true demoReady).1.sendBtnDisabled = false ∧
    (sendMessage none true true demoReady).1.speechBtnDisabled = false ∧
    (sendMessage none true true demoReady).1.downloadBtnVisible = false ∧
    (sendMessage none true true demoReady).2.countP Event.isChatRequest = 1 ∧
    (sendMessage none true true demoReady).2.countP Event.isAiTurn = 1 :=
  chat_failure_error_turn demoReady true true (by decide) rfl rfl

/-- Claim C10: on every valid Send-turn the input field is cleared before the
chat request is issued (exactly one clear event precedes the request in the
trace), and the field is not restored afterwards: whatever the request
outcome — including a network failure — the input field ends empty, so failed
text must be retyped. -/
theorem send_clears_input_before_request (s : State) (o : Option AIData) (b1 b2 : Bool)
    (hText : (jsTrim s.userInputValue).isEmpty = false) (hA : s.isAIReplying = false) :
    ((sendMessage o b1 b2 s).2.takeWhile (fun e => !e.isChatRequest)).countP
      Event.isClearInput = 1 ∧
    (sendMessage o b1 b2 s).1.userInputValue = "" := by
  unfold sendMessage chatResume
  simp only [hText, hA, Bool.or_self, Bool.false_eq_true, if_false]
  cases o <;>
    · simp [Event.isChatRequest, Event.isClearInput, List.takeWhile_cons]
      split_ifs <;>
        simp [Event.isChatRequest, Event.isClearInput, List.takeWhile_cons, speakTailEvents]

/-- Witness for send_clears_input_before_request: a concrete failed send. -/
theorem send_clears_input_before_request_witness :
    ((sendMessage none true true demoReady).2.takeWhile (fun e => !e.isChatRequest)).countP
      Event.isClearInput = 1 ∧
    (sendMessage none true true demoReady).1.userInputValue = "" :=
  send_clears_input_before_request demoReady none true true (by decide) rfl

/-- Claim C3: every processed AI-bearing response — from start or chat —
appends exactly one AI Turn, carrying the response text, before the speech
output adapter is invoked (the trace prefix before the first speech invocation
is exactly that one Turn), and in both the chat path and the start path no
controls re-enabling occurs before the first completion
signal, i.e. never between appending the Turn and the end of its playback. -/
theorem ai_turn_before_speech_reenable_after (s : State) (data : AIData) (b1 b2 : Bool) :
    ((processAndDisplayAIResponse data b1 s).2.1.takeWhile (fun e => !e.isSpeakInvoke)) =
      [Event.appendTurn data.response Sender.ai] ∧
    ((jsTrim s.userInputValue).isEmpty = false → s.isAIReplying = false →
      noReenableBeforeSpeakDone ((sendMessage (some data) b1 b2 s).2) = true) ∧
    ((jsTrim s.userNameValue).isEmpty = false → (jsTrim s.userExperienceValue).isEmpty = false →
      noReenableBeforeSpeakDone ((startClick (some data) b1 b2 s).2) = true) := by
  refine ⟨?_, fun hText hA => ?_, fun hN hE => ?_⟩
  · cases b1 <;>
      simp [Event.isSpeakInvoke, speakTailEvents, List.takeWhile_cons]
  · unfold sendMessage chatResume
    simp only [hText, hA, Bool.or_self, Bool.false_eq_true, if_false]
    cases b1 <;>
      · simp [noReenableBeforeSpeakDone, Event.isSpeakDone, Event.isReenable,
          speakTailEvents, List.takeWhile_cons]
        split_ifs <;>
          simp [noReenableBeforeSpeakDone, Event.isSpeakDone, Event.isReenable,
            List.takeWhile_cons]
  · unfold startClick startResume
    simp only [hN, hE, Bool.or_self, Bool.false_eq_true, if_false]
    cases b1 <;>
      · simp [noReenableBeforeSpeakDone, Event.isSpeakDone, Event.isReenable,
          speakTailEvents, List.takeWhile_cons]
        split_ifs <;>
          simp [noReenableBeforeSpeakDone, Event.isSpeakDone, Event.isReenable,
            List.takeWhile_cons]

/-- Witness for ai_turn_before_speech_reenable_after at a concrete send and a
concrete start, both with non-blank inputs. -/
theorem ai_turn_before_speech_reenable_after_witness :
    noReenableBeforeSpeakDone ((sendMessage (some demoTermData) true true demoReady).2) = true ∧
    noReenableBeforeSpeakDone ((startClick (some demoData) true true demoReady).2) = true :=
  ⟨(ai_turn_before_speech_reenable_after demoReady demoTermData true true).2.1
      (by decide) rfl,
   (ai_turn_before_speech_reenable_after demoReady demoData true true).2.2
      (by decide) (by decide)⟩

/-- Every page reaction other than the delivery of a pending start response
preserves the terminated configuration and appends no user Turn: every handler
reachable after termination is guarded (sendMessage by isAIReplying, typing by
the disabled input, the start button by the hidden setup container, the speech
handler by isAIReplying) or harmless (download), and the continuation of a
pending chat response finds the download button visible, so its finally block
never re-enables the controls and it appends only AI Turns. -/
theorem step_preserves_terminated (a : UserAction) (s : State) (h : Terminated s)
    (ha : a.isStartArrival = false) :
    Terminated (step a s).1 ∧
    userTurnCount (step a s).1.chatbox = userTurnCount s.chatbox := by
  obtain ⟨h1, h2, h3, h4, h5, h6⟩ := h
  cases a with
  | sendClick o b1 b2 => unfold step; simp_all [sendMessage, Terminated]
  | typeText t => unfold step; simp_all [Terminated]
  | startButtonClick o b1 b2 => unfold step; simp_all [Terminated]
  | speechButtonClick => unfold step; simp_all [speechClick, Terminated]
  | downloadButtonClick => unfold step; simp_all [downloadClick, Terminated]
  | recognitionResult t o b1 b2 =>
    unfold step
    split_ifs <;> simp_all [sendMessage, Terminated]
  | startResponseArrives o b1 b2 => simp_all [UserAction.isStartArrival]
  | chatResponseArrives o b1 b2 =>
    unfold step chatResume
    cases o with
    | none =>
      simp_all [Terminated, userTurnCount, Turn.isUserTurn, List.countP_append,
        List.countP_cons]
    | some d =>
      simp_all [Terminated, userTurnCount, Turn.isUserTurn, List.countP_append,
        List.countP_cons]
      split_ifs <;>
        simp_all [userTurnCount, Turn.isUserTurn, List.countP_append, List.countP_cons]

/-- Any sequence of page reactions containing no pending-start-response
delivery preserves the terminated configuration and appends no user Turn. -/
theorem run_preserves_terminated (acts : List UserAction) (s : State) (h : Terminated s)
    (hacts : ∀ a ∈ acts, a.isStartArrival = false) :
    Terminated (run acts s) ∧
    userTurnCount (run acts s).chatbox = userTurnCount s.chatbox := by
  induction acts generalizing s with
  | nil => exact ⟨h, rfl⟩
  | cons a rest ih =>
    have hs := step_preserves_terminated a s h (hacts a (List.mem_cons_self a rest))
    have hr := ih ((step a s).1) hs.1 (fun b hb => hacts b (List.mem_cons_of_mem a hb))
    exact ⟨hr.1, hr.2.trans hs.2⟩

/-- A terminating response embedded in the start response leaves the page in
the terminated configuration once the deferred endInterview tail has run. -/
theorem start_termination_locks (s : State) (d : AIData) (b1 b2 : Bool)
    (hN : (jsTrim s.userNameValue).isEmpty = false)
    (hE : (jsTrim s.userExperienceValue).isEmpty = false)
    (hO : d.interview_over = true) :
    Terminated (startClick (some d) b1 b2 s).1 := by
  unfold startClick startResume
  simp only [hN, hE, Bool.or_self, Bool.false_eq_true, if_false]
  simp [Terminated, hO]

/-- A terminating chat response leaves the page in the terminated
configuration once the deferred endInterview tail has run. -/
theorem chat_termination_locks (s : State) (d : AIData) (b1 b2 : Bool)
    (hText : (jsTrim s.userInputValue).isEmpty = false) (hA : s.isAIReplying = false)
    (hI : s.initialSetupVisible = false) (hO : d.interview_over = true) :
    Terminated (sendMessage (some d) b1 b2 s).1 := by
  unfold sendMessage chatResume
  simp only [hText, hA, Bool.or_self, Bool.false_eq_true, if_false]
  simp [Terminated, hO, hI]
  split_ifs <;> simp [hI]

/-- Counterexample to claim C1 as stated: the start handler is unguarded, so a
double-click leaves a second start request in flight (a click writes no state
before its fetch — see start_double_click_two_requests).  Here the first
response terminates the interview and the page reaches the terminated
configuration with no user Turn in the transcript; when the second, still
pending start response then arrives, its continuation runs the unconditional
setControlsState(false) at the end of the start handler, re-enabling the
input, send and speech controls and unlatching isAIReplying, after which an
ordinary send appends a further user Turn — so after termination the controls
do not remain disabled and a further user Turn can be appended. -/
theorem pending_start_response_unlocks :
    Terminated (startClick (some demoTermData) true true demoReady).1 ∧
    userTurnCount (startClick (some demoTermData) true true demoReady).1.chatbox = 0 ∧
    (startResume (some demoData) true true
        (startClick (some demoTermData) true true demoReady).1).1.isAIReplying = false ∧
    (startResume (some demoData) true true
        (startClick (some demoTermData) true true demoReady).1).1.userInputDisabled = false ∧
    (startResume (some demoData) true true
        (startClick (some demoTermData) true true demoReady).1).1.sendBtnDisabled = false ∧
    (startResume (some demoData) true true
        (startClick (some demoTermData) true true demoReady).1).1.speechBtnDisabled = false ∧
    userTurnCount ((sendMessage none true true
        (startResume (some demoData) true true
          (startClick (some demoTermData) true true demoReady).1).1).1.chatbox) = 1 := by
  decide

/-- Claim C1 (amended): termination latches against everything except the
delivery of a start response that was already in flight.  A terminating
response — whether from a chat turn or embedded in the very first (start)
response — leaves the page with isAIReplying latched, the input, send and
speech controls disabled and the download button visible; from that
configuration every further sequence of user events and pending chat-response
deliveries keeps those controls disabled and appends no further user Turn
(a pending chat response may append AI Turns but never re-enables the
controls).  Only the arrival of a start response left pending at termination
re-enables the controls (pending_start_response_unlocks). -/
theorem terminated_controls_locked_amended :
    (∀ (s : State) (acts : List UserAction), Terminated s →
      (∀ a ∈ acts, a.isStartArrival = false) →
      Terminated (run acts s) ∧
      userTurnCount (run acts s).chatbox = userTurnCount s.chatbox) ∧
    (∀ (s : State) (d : AIData) (b1 b2 : Bool),
      (jsTrim s.userNameValue).isEmpty = false →
      (jsTrim s.userExperienceValue).isEmpty = false →
      d.interview_over = true → Terminated (startClick (some d) b1 b2 s).1) ∧
    (∀ (s : State) (d : AIData) (b1 b2 : Bool),
      (jsTrim s.userInputValue).isEmpty = false → s.isAIReplying = false →
      s.initialSetupVisible = false → d.interview_over = true →
      Terminated (sendMessage (some d) b1 b2 s).1) :=
  ⟨fun s acts h hacts => run_preserves_terminated acts s h hacts,
   start_termination_locks, chat_termination_locks⟩

/-- Witness for terminated_controls_locked_amended: a concrete terminating
start response locks the page, and a concrete follow-up sequence — download
click, typing, send click, speech click and a pending chat-response delivery —
keeps it locked with no user Turn added. -/
theorem terminated_controls_locked_amended_witness :
    Terminated (startClick (some demoTermData) true true demoReady).1 ∧
    (Terminated (run demoFollowUps (startClick (some demoTermData) true true demoReady).1) ∧
     userTurnCount
        (run demoFollowUps (startClick (some demoTermData) true true demoReady).1).chatbox =
       userTurnCount (startClick (some demoTermData) true true demoReady).1.chatbox) :=
  ⟨terminated_controls_locked_amended.2.1 demoReady demoTermData true true
      (by decide) (by decide) rfl,
   terminated_controls_locked_amended.1 (startClick (some demoTermData) true true demoReady).1
     demoFollowUps (by decide) (by decide)⟩

end AIInterviewer
